import Mathlib

/-!
Verification of the AI liquidity-manager decision pipeline.

Shallow embedding of `src/ai/ai_engine.py` (namespace `AIE`) and
`src/ai/reward-calculator.py` (namespace `RC`).

Modelling conventions, used throughout:
* Python floats are modelled as exact rationals (`ℚ`); decimal literals such
  as `1e-9`, `12.5`, `0.05` denote the corresponding exact rationals.
* The machine square root (`np.sqrt` / `math.sqrt`) is an opaque numeric
  primitive; it is modelled by a function `Env.sqrt : ℚ → ℚ` carried by an
  environment parameter, so every theorem below is proved for an arbitrary
  implementation of square root.
* The module-level configuration `CONFIG` has fixed default values in the
  source; the only configurable one a claim quantifies over,
  `ETH_PRICE_USD_FALLBACK`, is a field of `Env`.  The remaining constants
  (`MIN_POOL_LIQUIDITY = 1000`, `DEFAULT_POOL_LIQUIDITY = 1e6`,
  `DEFAULT_GAS_GWEI = 50`, gas limits, `TICK_SPACING_DEFAULT = 60`,
  `SAFETY_MAX_GAS_ETH = 0.01`, `FEATURE_CLIP = 10`, `MIN_TICK_RANGE = 1`)
  are inlined as literals, as in the source.
* `float('nan')` can reach `MarketState.current_price` (the dataclass
  `__post_init__` does not filter non-finite values), so that field is given
  the type `PyF` (a rational or NaN); every other numeric field is only ever
  consumed through sanitizers that map non-finite values to defaults, and is
  modelled as a plain rational.
* Python exceptions are modelled with `Except String`; `try/except` blocks
  that resolve to a neutral value are modelled by matching on the result.
* The two `float('inf')` values of the source (`gas_cost_pct` when the
  position value is not positive) are modelled with `WithTop ℚ`, and the
  predicted reward `-(inf/100)` derived from one of them with `WithBot ℚ`.
-/

/-- Opaque numeric primitives and configurable constants threaded through the
embedding: the machine square root and `CONFIG.ETH_PRICE_USD_FALLBACK`. -/
structure Env where
  sqrt : ℚ → ℚ
  ethPriceUsdFallback : Option ℚ

/-- A Python float that is either an exact (finite) rational or NaN. -/
inductive PyF where
  | fin (q : ℚ)
  | nan
deriving DecidableEq

namespace PyF

/-- NaN-absorbing multiplication of Python floats. -/
def mul : PyF → PyF → PyF
  | fin a, fin b => fin (a * b)
  | _, _ => nan

/-- NaN-absorbing addition of Python floats. -/
def add : PyF → PyF → PyF
  | fin a, fin b => fin (a + b)
  | _, _ => nan

/-- Python truthiness fallback `v or d` on a float: `0.0` is falsy,
NaN is truthy. -/
def orF (v : PyF) (d : ℚ) : PyF :=
  match v with
  | fin q => if q = 0 then fin d else fin q
  | nan => nan

/-- CPython `max(d, v)` with a rational first argument: comparisons against
NaN are false, so NaN in second position loses. -/
def maxQ (d : ℚ) (v : PyF) : ℚ :=
  match v with
  | fin q => if d < q then q else d
  | nan => d

end PyF

/-- Python truthiness fallback `v or d` on an optional float
(`None` and `0.0` are falsy). -/
def orQ (v : Option ℚ) (d : ℚ) : ℚ :=
  match v with
  | some q => if q = 0 then d else q
  | none => d

namespace AIE

/-! ### Data structures (ai_engine.py, `Position` / `MarketState` / `Decision`) -/

/-- `Position` dataclass.  The `__post_init__` clamping of balances and
liquidity to `max(0, ...)` is re-applied by `validate_state`, so the raw
fields are kept here. -/
structure Position where
  id : ℤ
  owner : String
  lowerTick : ℚ
  upperTick : ℚ
  liquidity : ℚ
  token0_balance : ℚ
  token1_balance : ℚ
  fees_earned_0 : ℚ
  fees_earned_1 : ℚ
  age_seconds : ℚ
deriving DecidableEq

/-- The open `extra` side-channel map, restricted to the keys the engine
reads.  Absent keys are represented by `none` / the documented `.get`
default (`0` for `currentTick`, `True` for `inRange`). -/
structure Extra where
  token0_price_eth : Option ℚ
  token1_price_eth : Option ℚ
  eth_price_usd : Option ℚ
  token0_is_price_denominated : Bool
  token1_is_price_denominated : Bool
  p_ref : Option ℚ
  threshold_pct : Option ℚ
  currentTick : ℚ
  inRange : Bool
deriving DecidableEq

/-- `MarketState` dataclass after `__post_init__`. -/
structure MarketState where
  timestamp : ℚ
  poolId : String
  current_price : PyF
  price_unit : String
  twap_1h : ℚ
  twap_24h : ℚ
  volatility_1h : ℚ
  volatility_24h : ℚ
  pool_liquidity : ℚ
  volume_24h : ℚ
  gas_price : ℚ
  gas_unit : String
  position : Option Position
  extra : Extra
  deviation_pct : Option ℚ
  threshold_pct : Option ℚ
  within_bounds : Option Bool
  price_impact : Option String
deriving DecidableEq

/-- Recommended action parameters built by `_generate_params`. -/
inductive Params where
  | rebalanceParams (new_lower_tick new_upper_tick : ℤ) (range_percentage : ℚ)
      (current_tick : ℚ)
  | reduceParams
  | closeParams
  | emptyParams
deriving DecidableEq

/-- `Decision` dataclass.  `score` and `expected_reward` can be `-inf`
(see `heuristic_prediction`), hence `WithBot ℚ`.  The `metadata` dict is
diagnostic only (never read back by the pipeline) and is not modelled. -/
structure Decision where
  action : String
  confidence : ℚ
  score : WithBot ℚ
  expected_reward : WithBot ℚ
  reason : String
  risk_level : String
  recommended_params : Option Params
deriving DecidableEq

/-- `Decision.__post_init__`: clamps confidence into [0,1].
`float(self.expected_reward or 0.0)` is the identity on our values
(`-inf` is truthy, `0` maps to `0`). -/
def mkDecision (action : String) (confidence : ℚ) (score expected_reward : WithBot ℚ)
    (reason risk_level : String) (recommended_params : Option Params) : Decision :=
  { action := action
    confidence := max 0 (min 1 confidence)
    score := score
    expected_reward := expected_reward
    reason := reason
    risk_level := risk_level
    recommended_params := recommended_params }

/-! ### UnitConverter and safe math -/

/-- `UnitConverter._to_float_safe` on Python floats: NaN (non-finite) maps
to `0.0`.  (The string-parsing arm of the source is not exercised by any
claim and is not modelled.) -/
def to_float_safe : PyF → ℚ
  | .fin q => q
  | .nan => 0

/-- `UnitConverter.to_eth`.  Raises `ValueError` (modelled by
`Except.error`) for `usd` when neither a call-supplied price nor the
configured fallback is available, or the selected price is non-positive. -/
def to_eth (env : Env) (value : PyF) (unit : String) (eth_price_usd : Option ℚ) :
    Except String ℚ :=
  let num := to_float_safe value
  if num < 0 then .ok 0
  else if unit = "wei" then .ok (num / 1e18)
  else if unit = "gwei" then .ok (num / 1e9)
  else if unit = "eth" then .ok num
  else if unit = "usd" then
    match (match eth_price_usd with
           | some p => some p
           | none => env.ethPriceUsdFallback) with
    | none => .error "USD->ETH conversion requires eth_price_usd in call or CONFIG.ETH_PRICE_USD_FALLBACK"
    | some p =>
        if p ≤ 0 then
          .error "USD->ETH conversion requires eth_price_usd in call or CONFIG.ETH_PRICE_USD_FALLBACK"
        else .ok (num / p)
  else .ok num

/-- `UnitConverter.to_gwei`: non-positive (or non-finite) input yields the
default gas price of 50 gwei. -/
def to_gwei (value : ℚ) (unit : String) : ℚ :=
  if value ≤ 0 then 50
  else if unit = "wei" then value / 1e9
  else if unit = "gwei" then value
  else if unit = "eth" then value * 1e9
  else value

/-- `_safe_division` on rationals: a zero denominator yields the default
(the non-finiteness guards of the source cannot fire on exact rationals). -/
def safe_division (num den default : ℚ) : ℚ :=
  if den = 0 then default else num / den

/-- `_safe_division` where the numerator or denominator may be NaN. -/
def safe_division_f (num den : PyF) (default : ℚ) : ℚ :=
  match num, den with
  | .fin n, .fin d => if d = 0 then default else n / d
  | _, _ => default

/-- `PercentageCalculator.compute_deviation_pct`; a zero or NaN reference,
or a NaN current value, yields `0.0`. -/
def compute_deviation_pct (current reference : PyF) : ℚ :=
  match reference with
  | .nan => 0
  | .fin r =>
      if r = 0 then 0
      else
        match current with
        | .nan => 0
        | .fin c => |c - r| / |r| * 100

/-- `state.twap_24h or state.current_price` (truthiness fallback). -/
def twapOrCurrent (s : MarketState) : PyF :=
  if s.twap_24h = 0 then s.current_price else .fin s.twap_24h

/-! ### FeatureEngineering -/

/-- `np.clip(x, -10, 10)` on one entry (`CONFIG.FEATURE_CLIP = 10`). -/
def clipFeature (q : ℚ) : ℚ := min (max q (-10)) 10

/-- Python truthiness fallback used for the inferred token prices
(`token0_price_eth or (state.current_price if flag else None)`):
a `None` or `0.0` dict value falls through to the alternative. -/
def orOptF (v : Option ℚ) (alt : Option PyF) : Option PyF :=
  match v with
  | some q => if q = 0 then alt else some (.fin q)
  | none => alt

/-- Body of `FeatureEngineering.extract_features` (the code inside the
outer `try`).  Exceptions escaping the inner computations — the
`to_eth` `ValueError` on USD conversion without a price, and the
`AttributeError` on a missing position — propagate to the caller.
The pure `let` bindings commute freely with the effectful conversions,
so they are grouped after the binds; the order of the effects themselves
(three/four `to_eth` calls, then the first attribute access on the
position) is the order of the source.  Entries of the returned list are
exact rationals, so `np.nan_to_num` is the identity here; the final
elementwise clip is kept. -/
def extract_features_body (env : Env) (s : MarketState) : Except String (List ℚ) :=
  let extra := s.extra
  let eth_price_usd := extra.eth_price_usd
  let token0_price_eth : Option PyF :=
    orOptF extra.token0_price_eth
      (if extra.token0_is_price_denominated then some s.current_price else none)
  let token1_price_eth : Option PyF :=
    orOptF extra.token1_price_eth
      (if extra.token1_is_price_denominated then some s.current_price else none)
  match to_eth env s.current_price s.price_unit eth_price_usd with
  | .error e => .error e
  | .ok current_price_eth =>
  match to_eth env ((PyF.fin s.twap_1h).orF current_price_eth) s.price_unit eth_price_usd with
  | .error e => .error e
  | .ok _twap_1h_eth =>
  match to_eth env ((PyF.fin s.twap_24h).orF current_price_eth) s.price_unit eth_price_usd with
  | .error e => .error e
  | .ok twap_24h_eth =>
  match (match extra.p_ref with
         | some pr =>
             if pr = 0 then .ok twap_24h_eth
             else to_eth env (.fin pr) s.price_unit eth_price_usd
         | none => .ok twap_24h_eth : Except String ℚ) with
  | .error e => .error e
  | .ok reference_price =>
  match s.position with
  | none => .error "AttributeError: NoneType object has no attribute lowerTick"
  | some pos =>
    let price_dev_24h := compute_deviation_pct (.fin current_price_eth) (.fin twap_24h_eth)
    let price_dev_ref := compute_deviation_pct (.fin current_price_eth) (.fin reference_price)
    let price_ratio_ref := safe_division current_price_eth reference_price 1
    let current_deviation :=
      match s.deviation_pct with
      | some d => if 0 < d then d else price_dev_24h
      | none => price_dev_24h
    let threshold :=
      match s.threshold_pct with
      | some t => if 0 < t then t else orQ extra.threshold_pct 5
      | none => orQ extra.threshold_pct 5
    let _threshold_ratio := safe_division current_deviation threshold 0
    let current_tick := extra.currentTick
    let tick_lower := pos.lowerTick
    let tick_upper := pos.upperTick
    let tick_range := max 1 |tick_upper - tick_lower|
    let tick_midpoint := (tick_upper + tick_lower) / 2
    let position_in_range := min (max ((current_tick - tick_lower) / tick_range) 0) 1
    let denom_lower := max |tick_lower| 1
    let denom_upper := max |tick_upper| 1
    let dist_to_lower := safe_division |current_tick - tick_lower| denom_lower 0
    let dist_to_upper := safe_division |tick_upper - current_tick| denom_upper 0
    let _in_range_score : ℚ := if extra.inRange then 1 else 0
    let pos_val : PyF :=
      match token0_price_eth, token1_price_eth with
      | some p0, some p1 =>
          ((PyF.fin pos.token0_balance).mul p0).add ((PyF.fin pos.token1_balance).mul p1)
      | _, _ =>
          match to_eth env (.fin pos.token0_balance) s.price_unit eth_price_usd,
                to_eth env (.fin pos.token1_balance) s.price_unit eth_price_usd with
          | .ok v0, .ok v1 => .fin (v0 + v1)
          | _, _ => .fin 0
    let total_value_normalized := safe_division_f pos_val (.fin 1e6) 0
    let pool_liquidity := max 1000 (if s.pool_liquidity = 0 then 1e6 else s.pool_liquidity)
    let liquidity_util := safe_division pos.liquidity pool_liquidity 0
    let _liquidity_normalized := safe_division pos.liquidity 1e18 0
    let total_fees := pos.fees_earned_0 + pos.fees_earned_1
    let fee_rate := safe_division total_fees (PyF.maxQ 1e-9 pos_val) 0
    let price_ratio := safe_division current_price_eth twap_24h_eth 1
    let il_factor :=
      if 0 < price_ratio then |2 * env.sqrt price_ratio / (1 + price_ratio) - 1| else 0
    let vol_24h := max 0 s.volatility_24h
    let volatility_ratio := safe_division s.volatility_1h (if vol_24h = 0 then 1 else vol_24h) 1
    let volume_24h := max 0 s.volume_24h
    let volume_per_liquidity := safe_division volume_24h pool_liquidity 0
    let pool_liquidity_normalized := safe_division pool_liquidity 1e24 0
    let _volume_normalized := safe_division volume_24h 1e24 0
    let age_days := max 0 (pos.age_seconds / 86400)
    let _age_normalized := min (age_days / 30) 1
    let concentration_risk := liquidity_util * (1 - position_in_range)
    let range_risk :=
      if 0 < tick_range ∧ 0 < |tick_midpoint| then
        min 1 (safe_division 1 (tick_range / |tick_midpoint|) 0)
      else 0
    let gas_price_gwei := to_gwei s.gas_price s.gas_unit
    let gas_cost_eth := gas_price_gwei * 600000 / 1e9
    let gas_normalized := min (gas_cost_eth / 0.1) 1
    let _deviation_severity :=
      if 0 < threshold then max 0 ((current_deviation - threshold) / threshold) else 0
    let rebalance_urgency := min (current_deviation / 20) 1
    .ok (List.map clipFeature
      [price_dev_24h, price_dev_ref, price_ratio_ref, current_deviation,
       (if s.within_bounds = some true then 1 else 0),
       position_in_range, dist_to_lower, dist_to_upper, liquidity_util,
       total_value_normalized, vol_24h, volatility_ratio, fee_rate, il_factor,
       pool_liquidity_normalized, volume_per_liquidity, concentration_risk,
       range_risk, gas_normalized, rebalance_urgency])

/-- `FeatureEngineering.extract_features`: the outer `try/except` maps any
failure of the body to the all-zero 20-vector. -/
def extract_features (env : Env) (s : MarketState) : List ℚ :=
  match extract_features_body env s with
  | .ok v => v
  | .error _ => List.replicate 20 0

/-! ### RiskManager

`RiskManager()` is constructed by `AIEngine.__init__` with the CONFIG
defaults, so `max_loss_pct = max(0.001, min(0.2, 0.05)) = 0.05` and
`max_gas_eth = max(0.0001, min(0.5, 0.01)) = 0.01`; these are inlined. -/

/-- `CONFIG.GAS_LIMITS.get(action, 500_000)`. -/
def gas_limit_for (action : String) : ℚ :=
  if action = "rebalance" then 600000
  else if action = "reduce" then 400000
  else if action = "close" then 500000
  else if action = "hold" then 0
  else 500000

/-- `RiskManager.calculate_gas_cost`: gwei price floored at 1, result
capped at 0.5 ETH. -/
def calculate_gas_cost (gas_price : ℚ) (gas_unit : String) (action : String) : ℚ :=
  min (max 1 (to_gwei gas_price gas_unit) * gas_limit_for action / 1e9) 0.5

/-- `RiskManager.calculate_position_value`.  Both arms sit inside
`try/except` blocks returning `0.0`; a missing position raises
`AttributeError` inside them, and a failing `to_eth` raises in the
fallback arm, so both resolve to `0`. -/
def calculate_position_value (env : Env) (s : MarketState) : ℚ :=
  match s.position with
  | none => 0
  | some pos =>
    match s.extra.token0_price_eth, s.extra.token1_price_eth with
    | some p0, some p1 => max 0 (pos.token0_balance * p0 + pos.token1_balance * p1)
    | _, _ =>
        match to_eth env (.fin pos.token0_balance) s.price_unit s.extra.eth_price_usd,
              to_eth env (.fin pos.token1_balance) s.price_unit s.extra.eth_price_usd with
        | .ok v0, .ok v1 => max 0 (v0 + v1)
        | _, _ => 0

/-- `RiskManager.assess_risk` (the `predicted_reward` parameter is unused
in the source body and is omitted).  Returns `(risk_level, risk_score)`. -/
def assess_risk (env : Env) (s : MarketState) : String × ℚ :=
  let vol_24h := max 0 s.volatility_24h
  let volatility_risk := min (vol_24h / 1) 1
  let price_dev :=
    match s.deviation_pct with
    | some d => max 0 d
    | none => compute_deviation_pct s.current_price (twapOrCurrent s)
  let price_risk := min (price_dev / 20) 1
  let range_risk : ℚ := if s.extra.inRange then 0 else 0.5
  let gas_cost_eth := calculate_gas_cost s.gas_price s.gas_unit "rebalance"
  let position_value := max 1e-9 (calculate_position_value env s)
  let gas_risk := min (safe_division gas_cost_eth (position_value * 0.01) 1) 1
  let price_ratio := safe_division_f s.current_price (twapOrCurrent s) 1
  let il_risk :=
    if 0 < price_ratio then
      min (|2 * env.sqrt price_ratio / (1 + price_ratio) - 1| / 0.1) 1
    else 0
  let bounds_risk :=
    match s.threshold_pct with
    | some t =>
        if t ≠ 0 ∧ 0 < t ∧ s.within_bounds = some false then
          min (safe_division (price_dev - t) t 0) 1
        else 0
    | none => 0
  let risk_score :=
    0.25 * volatility_risk + 0.20 * price_risk + 0.20 * range_risk +
    0.15 * il_risk + 0.10 * gas_risk + 0.10 * bounds_risk
  let risk_score := max 0 (min 1 risk_score)
  (if risk_score < 0.3 then "low" else if risk_score < 0.6 then "medium" else "high",
   risk_score)

/-- `RiskManager.should_execute`.  The source accumulates the violated
conditions in a `reasons` list (used only for logging) and returns `False`
iff that list is non-empty; this is expressed as the equivalent chain of
early `false` returns. -/
def should_execute (env : Env) (d : Decision) (s : MarketState) : Bool :=
  if d.action = "hold" then false
  else if to_gwei s.gas_price s.gas_unit > 200 then false
  else if calculate_position_value env s ≤ 0 then false
  else if calculate_gas_cost s.gas_price s.gas_unit d.action > 0.01 then false
  else if (if 0 < calculate_position_value env s then
             ((safe_division (calculate_gas_cost s.gas_price s.gas_unit d.action)
                (calculate_position_value env s) 0 * 100 : ℚ) : WithTop ℚ)
           else ⊤) > ((12.5 : ℚ) : WithTop ℚ) then false
  else if d.risk_level = "high" ∧ d.confidence < 0.8 then false
  else true

/-! ### AIEngine

The engine is modelled as constructed by `AIEngine()` with no model path:
`self.ensemble is None`, so `decide` always takes the rule-based branch
(the optional external statistical estimator is outside the core, per the
spec).  The mutable bookkeeping that never feeds back into a decision
(`self.stats`, `self.decision_history`, logging) is not modelled; the
`_recent_actions` window, which does feed back into the returned
confidence, is passed in explicitly. -/

/-- `state.price_impact and isinstance(..., str) and ... in ('high', 'very_high')`. -/
def price_impact_high (s : MarketState) : Bool :=
  match s.price_impact with
  | some p => p.toLower = "high" ∨ p.toLower = "very_high"
  | none => false

/-- `AIEngine._heuristic_prediction` (the `features` parameter of the
source is never read in its body and is omitted).  Returns
`(predicted_reward, confidence)`.  `gas_cost_pct` is `inf` (`⊤`) when the
position value is not positive, making the first reject fire and produce
the reward `-(inf/100) = -inf` (`⊥`); consequently the `match` arms
tagged unreachable below can only be entered with a positive position
value, in particular with a present position (in Python a missing
position would raise `AttributeError` at the balance accesses, but the
early reject always precedes them). -/
def heuristic_prediction (env : Env) (s : MarketState) : WithBot ℚ × ℚ :=
  let pos_val := calculate_position_value env s
  let gas_cost_eth := calculate_gas_cost s.gas_price s.gas_unit "rebalance"
  let gas_cost_pct : WithTop ℚ :=
    if 0 < pos_val then ((safe_division gas_cost_eth pos_val 0 * 100 : ℚ) : WithTop ℚ)
    else ⊤
  let gas_price_gwei := to_gwei s.gas_price s.gas_unit
  if gas_price_gwei > 150 ∨ gas_cost_pct > ((12.5 : ℚ) : WithTop ℚ) then
    (match gas_cost_pct with
     | ⊤ => (⊥ : WithBot ℚ)
     | (q : ℚ) => ((-(q / 100) : ℚ) : WithBot ℚ), 0.9)
  else if price_impact_high s then (((-0.01 : ℚ) : WithBot ℚ), 0.7)
  else
    match s.position with
    | none => (((0 : ℚ) : WithBot ℚ), 0.05)  -- unreachable: pos_val = 0 fires the first reject
    | some pos =>
      let in_range := s.extra.inRange
      let rebalance_benefit :=
        if s.within_bounds = some false then
          let deviation :=
            match s.deviation_pct with
            | some d =>
                if d = 0 then compute_deviation_pct s.current_price (twapOrCurrent s) else d
            | none => compute_deviation_pct s.current_price (twapOrCurrent s)
          deviation * 0.8
        else if ¬ in_range then
          let current_tick := s.extra.currentTick
          let tick_midpoint := (pos.upperTick + pos.lowerTick) / 2
          if tick_midpoint ≠ 0 then
            |current_tick - tick_midpoint| / |tick_midpoint| * 100 * 0.5
          else 0
        else 0
      let total_balance := pos.token0_balance + pos.token1_balance
      let fee_benefit :=
        if 0 < total_balance then
          safe_division (pos.fees_earned_0 + pos.fees_earned_1) total_balance 0 *
            safe_division s.volume_24h s.pool_liquidity 0 * 100
        else 0
      let price_ratio := safe_division_f s.current_price (twapOrCurrent s) 1
      let il_cost :=
        if 0 < price_ratio then
          |2 * env.sqrt price_ratio / (1 + price_ratio) - 1| * 100 * 0.5
        else 0
      let gas_cost_pct_q :=
        match gas_cost_pct with
        | ⊤ => 0  -- unreachable in this branch (⊤ > 12.5 fires the reject)
        | (q : ℚ) => q
      let predicted_pct := rebalance_benefit + fee_benefit - il_cost - gas_cost_pct_q
      let vol_24h := s.volatility_24h
      let pm :=
        if vol_24h ≥ 0.5 then (predicted_pct * 0.4, (0.6 : ℚ))
        else if vol_24h ≥ 0.35 then (predicted_pct * 0.7, (0.8 : ℚ))
        else (predicted_pct, 1)
      let predicted_pct := pm.1
      let confidence_mult := pm.2
      let predicted_reward := predicted_pct / 100
      let signal_strength := min (|predicted_pct| / 10) 1
      let signal_strength :=
        if s.within_bounds = some false then min (signal_strength * 1.4) 1
        else signal_strength
      let confidence := signal_strength * confidence_mult
      (((predicted_reward : ℚ) : WithBot ℚ), min (max confidence 0.05) 0.9)

/-- `AIEngine._determine_action`.  (The source's `if state.within_bounds:
pass` is a no-op and is not reproduced.) -/
def determine_action (env : Env) (reward : WithBot ℚ) (confidence : ℚ)
    (risk_level : String) (s : MarketState) : String :=
  let pos_val := calculate_position_value env s
  let gas_gwei := to_gwei s.gas_price s.gas_unit
  let base_thresh := orQ s.threshold_pct 3
  let dynamic_thresh := base_thresh + s.volatility_24h * 5 + gas_gwei / 1000
  if gas_gwei > 120 ∨
      safe_division (calculate_gas_cost s.gas_price s.gas_unit "rebalance") pos_val 0 * 100
        > 12.5 then "hold"
  else if price_impact_high s ∧ pos_val < 5 then "hold"
  else
    let in_range := s.extra.inRange
    if confidence > 0.7 then "rebalance"
    else if confidence > 0.75 ∧ reward > ((dynamic_thresh / 100 : ℚ) : WithBot ℚ) then
      "rebalance"
    else if confidence > 0.8 ∧ reward > ((0.05 : ℚ) : WithBot ℚ) ∧ risk_level ≠ "high" then
      "rebalance"
    else if ¬ in_range ∧ confidence > 0.5 ∧ reward > ((0.01 : ℚ) : WithBot ℚ) then
      "rebalance"
    else "hold"

/-- Python `int()` truncation toward zero on a rational. -/
def pyInt (q : ℚ) : ℤ := if 0 ≤ q then ⌊q⌋ else ⌈q⌉

/-- `AIEngine._generate_params` (`CONFIG.TICK_SPACING_DEFAULT = 60`). -/
def generate_params (action : String) (s : MarketState) : Params :=
  if action = "rebalance" then
    let current_tick := s.extra.currentTick
    let volatility := max 0.1 (if s.volatility_24h = 0 then 0.3 else s.volatility_24h)
    let range_pct := (1 + volatility) * 5
    let tick_range : ℤ := pyInt (range_pct / 100 * 2000)
    let lower_tick : ℤ := ⌊(current_tick - (tick_range : ℚ)) / 60⌋ * 60
    let upper_tick : ℤ := ⌈(current_tick + (tick_range : ℚ)) / 60⌉ * 60
    .rebalanceParams lower_tick upper_tick range_pct current_tick
  else if action = "reduce" then .reduceParams
  else if action = "close" then .closeParams
  else .emptyParams

/-- `AIEngine._create_fallback_decision`. -/
def create_fallback_decision (reason : String) : Decision :=
  mkDecision "hold" 0.05 ((0 : ℚ) : WithBot ℚ) ((0 : ℚ) : WithBot ℚ) reason "high" none

/-- `AIEngine._validate_state`: raises on a missing position and on a
failing USD conversion; otherwise re-canonicalizes `current_price`,
`pool_liquidity`, `gas_price` and the position's balances/liquidity
*in place* and returns the updated state. -/
def validate_state (env : Env) (s : MarketState) : Except String MarketState :=
  match s.position with
  | none => .error "Invalid state: missing position"
  | some pos =>
    match to_eth env (s.current_price.orF 1) s.price_unit s.extra.eth_price_usd with
    | .error e => .error e
    | .ok cp =>
      .ok { s with
        current_price := PyF.fin (max 1e-9 cp)
        pool_liquidity := max 1000 (if s.pool_liquidity = 0 then 1e6 else s.pool_liquidity)
        gas_price := if s.gas_price = 0 then 50 else s.gas_price
        position := some { pos with
          token0_balance := max 0 pos.token0_balance
          token1_balance := max 0 pos.token1_balance
          liquidity := max 0 pos.liquidity } }

/-- The pre-safety decision built by `AIEngine.decide` on the validated
state (rule-based branch, `self.ensemble is None`): heuristic prediction,
risk assessment, action policy, parameter generation, and the `Decision`
construction with its confidence clip. -/
def decide_core (env : Env) (s : MarketState) : Decision :=
  let pr := heuristic_prediction env s
  let ar := assess_risk env s
  let action := determine_action env pr.1 pr.2 ar.1 s
  let recommended_params :=
    if action ≠ "hold" then some (generate_params action s) else none
  mkDecision action (min (max pr.2 0) 1) pr.1 pr.1 "rule_based" ar.1 recommended_params

/-- The safety-gate step of `AIEngine.decide`: on a failed
`should_execute` the action is forced to `hold`, the reason annotated and
the confidence reduced. -/
def apply_safety (env : Env) (d : Decision) (s : MarketState) : Decision :=
  if should_execute env d s then d
  else { d with
    action := "hold"
    reason := d.reason ++ "_safety_blocked"
    confidence := max 0.05 (d.confidence - 0.2) }

/-- The anti-bias step of `AIEngine.decide`: the action is appended to the
`_recent_actions` deque (maxlen 20, oldest evicted) and, when the window
is full of a single repeated action, the confidence is dampened. -/
def apply_anti_bias (recent : List String) (d : Decision) : Decision :=
  let r := recent ++ [d.action]
  let r := if r.length > 20 then r.drop (r.length - 20) else r
  if r.length = 20 ∧ (∀ a ∈ r, ∀ b ∈ r, a = b) then
    { d with confidence := d.confidence * 0.7 }
  else d

/-- The body of `AIEngine.decide` inside its outer `try`; any raised
exception propagates.  Also returns the (mutated) state. -/
def decide_body (env : Env) (recent : List String) (s : MarketState) :
    Except String (Decision × MarketState) :=
  match validate_state env s with
  | .error e => .error e
  | .ok s1 =>
    let _features := extract_features env s1
    let d0 := decide_core env s1
    let d1 := apply_safety env d0 s1
    let d2 := apply_anti_bias recent d1
    .ok (d2, s1)

/-- `AIEngine.decide`: the outer `try/except` maps any exception to the
fallback `hold` decision.  The second component is the state as the caller
observes it after the call (mutated by `_validate_state` on the success
path, untouched when validation raised). -/
def decide (env : Env) (recent : List String) (s : MarketState) :
    Decision × MarketState :=
  match decide_body env recent s with
  | .ok r => r
  | .error e => (create_fallback_decision e, s)

end AIE

namespace RC

/-! ### reward-calculator.py

Embedding of `UniswapV3Math` and `RewardCalculator`.  Division follows
Lean's total-division convention `q / 0 = 0`; in the source every division
site is either guarded to a non-zero denominator or sits inside a
`try/except` that resolves the whole computation to a neutral value — no
claim below depends on the value taken at such a site. -/

/-- `PositionState` dataclass. -/
structure PositionState where
  lower_tick : ℤ
  upper_tick : ℤ
  liquidity : ℚ
  token0_balance : ℚ
  token1_balance : ℚ
  current_tick : ℤ
  current_price : ℚ
  fees_earned_0 : ℚ
  fees_earned_1 : ℚ
deriving DecidableEq

/-- `PoolState` dataclass. -/
structure PoolState where
  fee_tier : ℤ
  volume_24h : ℚ
  tvl : ℚ
  token0_decimals : ℤ
  token1_decimals : ℤ
  active_liquidity_ratio : ℚ
deriving DecidableEq

/-- Tick clamp to `[MIN_TICK, MAX_TICK] = [-887272, 887272]`. -/
def clampTick (t : ℤ) : ℤ := max (-887272) (min 887272 t)

/-- `UniswapV3Math.tick_to_price`: `1.0001 ** tick` after clamping.  On an
integer tick the Python power is the exact rational power modelled here. -/
def tick_to_price (t : ℤ) : ℚ := (10001 / 10000 : ℚ) ^ clampTick t

/-- `UniswapV3Math.tick_to_sqrt_price`: `1.0001 ** (tick / 2)`, i.e. the
machine square root of `1.0001 ** tick`, modelled through `Env.sqrt`. -/
def tick_to_sqrt_price (env : Env) (t : ℤ) : ℚ := env.sqrt (tick_to_price t)

/-- `UniswapV3Math.get_amounts_for_liquidity`. -/
def get_amounts_for_liquidity (liquidity sqrt_price_current sqrt_price_lower
    sqrt_price_upper : ℚ) : ℚ × ℚ :=
  if liquidity ≤ 0 ∨ sqrt_price_lower ≤ 0 ∨ sqrt_price_upper ≤ 0 then (0, 0)
  else if sqrt_price_upper ≤ sqrt_price_lower then (0, 0)
  else if sqrt_price_current ≤ sqrt_price_lower then
    (max 0 (liquidity * (1 / sqrt_price_lower - 1 / sqrt_price_upper)), 0)
  else if sqrt_price_current ≥ sqrt_price_upper then
    (0, max 0 (liquidity * (sqrt_price_upper - sqrt_price_lower)))
  else
    (max 0 (liquidity * (1 / sqrt_price_current - 1 / sqrt_price_upper)),
     max 0 (liquidity * (sqrt_price_current - sqrt_price_lower)))

/-- `RewardCalculator.calculate_position_value` (value in token1 units;
the `in_token1=False` arm divides by the current price instead). -/
def calculate_position_value (p : PositionState) (in_token1 : Bool := true) : ℚ :=
  if p.current_price ≤ 0 then 0
  else if in_token1 then
    max 0 (p.token0_balance * p.current_price + p.token1_balance +
      (p.fees_earned_0 * p.current_price + p.fees_earned_1))
  else
    max 0 (p.token0_balance + p.token1_balance / p.current_price +
      (p.fees_earned_0 + p.fees_earned_1 / p.current_price))

/-- `RewardCalculator.calculate_impermanent_loss`: concentration-amplified
IL, capped into `[0, 1]`; degenerate inputs yield `0`. -/
def calculate_impermanent_loss (env : Env) (entry_price current_price : ℚ)
    (lower_tick upper_tick : ℤ) : ℚ :=
  if entry_price ≤ 0 ∨ current_price ≤ 0 then 0
  else if upper_tick ≤ lower_tick then 0
  else
    let sqrt_entry := env.sqrt entry_price
    let sqrt_current := env.sqrt current_price
    let sqrt_lower := tick_to_sqrt_price env lower_tick
    let sqrt_upper := tick_to_sqrt_price env upper_tick
    if sqrt_upper ≤ sqrt_lower ∨ sqrt_lower ≤ 0 then 0
    else
      let il :=
        if sqrt_current ≤ sqrt_lower then |sqrt_current / sqrt_entry - 1|
        else if sqrt_current ≥ sqrt_upper then |sqrt_entry / sqrt_current - 1|
        else
          let value_current := (1 / sqrt_current - 1 / sqrt_upper) + (sqrt_current - sqrt_lower)
          let value_entry := (1 / sqrt_entry - 1 / sqrt_upper) + (sqrt_entry - sqrt_lower)
          if value_entry ≤ 0 then 0 else |value_current / value_entry - 1|
      let range_width := sqrt_upper - sqrt_lower
      let concentration :=
        if range_width ≤ 0 ∨ sqrt_entry ≤ 0 then 1
        else max 1 (min 5 (1 / max (range_width / sqrt_entry) 0.1))
      -- in the `value_entry ≤ 0` sub-case the source returns 0 before amplifying
      if (¬ (sqrt_current ≤ sqrt_lower) ∧ ¬ (sqrt_current ≥ sqrt_upper) ∧
          (1 / sqrt_entry - 1 / sqrt_upper) + (sqrt_entry - sqrt_lower) ≤ 0) then 0
      else max 0 (min (il * concentration) 1)

/-- `RewardCalculator.estimate_fee_yield`. -/
def estimate_fee_yield (env : Env) (p : PositionState) (pool : PoolState)
    (time_period_hours : ℚ) : ℚ :=
  if ¬ (p.lower_tick ≤ p.current_tick ∧ p.current_tick ≤ p.upper_tick) then 0
  else if pool.tvl ≤ 0 ∨ pool.volume_24h ≤ 0 ∨ p.current_price ≤ 0 then 0
  else
    let position_value := calculate_position_value p true
    if position_value ≤ 0 then 0
    else
      let active_tvl := pool.tvl * pool.active_liquidity_ratio
      if active_tvl ≤ 0 then 0
      else
        let liquidity_share := position_value / active_tvl
        let sqrt_lower := tick_to_sqrt_price env p.lower_tick
        let sqrt_upper := tick_to_sqrt_price env p.upper_tick
        let sqrt_current := env.sqrt p.current_price
        let range_width := sqrt_upper - sqrt_lower
        let concentration_bonus :=
          if range_width ≤ 0 ∨ sqrt_current ≤ 0 then 1
          else max 1 (min (2 * sqrt_current / range_width) 10)
        let fee_rate := (pool.fee_tier : ℚ) / 1000000
        let daily_fees := pool.volume_24h * fee_rate
        let position_fees := daily_fees * liquidity_share * concentration_bonus
        max 0 (position_fees * (time_period_hours / 24))

/-- Cost breakdown returned by `calculate_rebalance_cost`. -/
structure CostBreakdown where
  gas_cost : ℚ
  slippage_cost : ℚ
  il_crystallized : ℚ
  price_impact : ℚ
  total_cost : ℚ
deriving DecidableEq

/-- `RewardCalculator.calculate_rebalance_cost` (default
`slippage_bps = 30`; the `post_position` parameter is unused in the
source body). -/
def calculate_rebalance_cost (env : Env) (pre_position : PositionState)
    (gas_cost_eth : ℚ) (slippage_bps : ℚ := 30) : CostBreakdown :=
  let pre_value := calculate_position_value pre_position true
  if pre_value ≤ 0 then
    { gas_cost := gas_cost_eth, slippage_cost := 0, il_crystallized := 0,
      price_impact := 0, total_cost := gas_cost_eth }
  else
    let slippage_cost := pre_value * (slippage_bps / 10000) * 2
    let entry_tick := Int.fdiv (pre_position.lower_tick + pre_position.upper_tick) 2
    let entry_price := tick_to_price entry_tick
    let il_pct := calculate_impermanent_loss env entry_price pre_position.current_price
      pre_position.lower_tick pre_position.upper_tick
    let il_cost := pre_value * il_pct
    let price_impact : ℚ := 0
    { gas_cost := max 0 gas_cost_eth
      slippage_cost := max 0 slippage_cost
      il_crystallized := max 0 il_cost
      price_impact := max 0 price_impact
      total_cost := max 0 (gas_cost_eth + slippage_cost + il_cost + price_impact) }

/-- Benefit breakdown returned by `calculate_rebalance_benefit`. -/
structure BenefitBreakdown where
  fee_improvement : ℚ
  range_improvement : ℚ
  centering_benefit : ℚ
  total_benefit : ℚ
deriving DecidableEq

/-- `RewardCalculator.calculate_rebalance_benefit`. -/
def calculate_rebalance_benefit (env : Env) (pre_position post_position : PositionState)
    (pool : PoolState) (forecast_hours : ℚ := 24) : BenefitBreakdown :=
  let pre_fee_yield := estimate_fee_yield env pre_position pool forecast_hours
  let post_fee_yield := estimate_fee_yield env post_position pool forecast_hours
  let fee_improvement := post_fee_yield - pre_fee_yield
  let pre_in_range :=
    pre_position.lower_tick ≤ pre_position.current_tick ∧
      pre_position.current_tick ≤ pre_position.upper_tick
  let post_in_range :=
    post_position.lower_tick ≤ post_position.current_tick ∧
      post_position.current_tick ≤ post_position.upper_tick
  let range_improvement_value :=
    if ¬ pre_in_range ∧ post_in_range then post_fee_yield * 0.5 else 0
  let pre_center := ((pre_position.lower_tick + pre_position.upper_tick : ℤ) : ℚ) / 2
  let post_center := ((post_position.lower_tick + post_position.upper_tick : ℤ) : ℚ) / 2
  let pre_distance := |(pre_position.current_tick : ℚ) - pre_center|
  let post_distance := |(post_position.current_tick : ℚ) - post_center|
  let position_value := calculate_position_value pre_position true
  let centering_benefit :=
    if post_distance < pre_distance ∧ 0 < pre_distance then
      position_value * ((pre_distance - post_distance) / pre_distance) * 0.001
    else 0
  let total := fee_improvement + range_improvement_value + centering_benefit
  { fee_improvement := max 0 fee_improvement
    range_improvement := max 0 range_improvement_value
    centering_benefit := max 0 centering_benefit
    total_benefit := max 0 total }

/-- Full reward breakdown returned by `calculate_net_reward` (the fields
of the returned dict that a claim can observe). -/
structure RewardBreakdown where
  gas_cost : ℚ
  slippage_cost : ℚ
  il_crystallized : ℚ
  total_cost : ℚ
  fee_improvement : ℚ
  range_improvement : ℚ
  centering_benefit : ℚ
  total_benefit : ℚ
  net_reward : ℚ
  roi_pct : ℚ
  is_profitable : Bool
  pre_value : ℚ
  post_value : ℚ
  forecast_hours : ℚ
deriving DecidableEq

/-- `RewardCalculator.calculate_net_reward`. -/
def calculate_net_reward (env : Env) (pre_position post_position : PositionState)
    (pool : PoolState) (gas_cost_eth : ℚ) (forecast_hours : ℚ := 24) : RewardBreakdown :=
  let costs := calculate_rebalance_cost env pre_position gas_cost_eth 30
  let benefits := calculate_rebalance_benefit env pre_position post_position pool forecast_hours
  let net_reward := benefits.total_benefit - costs.total_cost
  let pre_value := calculate_position_value pre_position true
  let roi_pct := if 0 < pre_value then net_reward / pre_value * 100 else 0
  { gas_cost := costs.gas_cost
    slippage_cost := costs.slippage_cost
    il_crystallized := costs.il_crystallized
    total_cost := costs.total_cost
    fee_improvement := benefits.fee_improvement
    range_improvement := benefits.range_improvement
    centering_benefit := benefits.centering_benefit
    total_benefit := benefits.total_benefit
    net_reward := net_reward
    roi_pct := roi_pct
    is_profitable := 0 < net_reward
    pre_value := pre_value
    post_value := calculate_position_value post_position true
    forecast_hours := forecast_hours }

/-- `UniswapV3Math.price_to_tick`: `floor(log(price)/log(1.0001))`,
clamped; non-positive prices yield tick 0.  The machine logarithm is
modelled by the exact real logarithm, so the argument ranges over `ℝ`. -/
noncomputable def price_to_tick (p : ℝ) : ℤ :=
  if p ≤ 0 then 0
  else clampTick ⌊Real.log p / Real.log (10001 / 10000)⌋

end RC

/-! ## Shared concrete instances for witnesses and counterexamples -/

/-- A concrete environment: an arbitrary machine square root
(the constant-zero function) and no configured USD fallback price,
matching the `CONFIG` default `ETH_PRICE_USD_FALLBACK = None`. -/
def env0 : Env := ⟨fun _ => 0, none⟩

/-- The `extra` map with no keys set (all `.get` calls take their defaults). -/
def extra0 : AIE.Extra :=
  { token0_price_eth := none, token1_price_eth := none, eth_price_usd := none,
    token0_is_price_denominated := false, token1_is_price_denominated := false,
    p_ref := none, threshold_pct := none, currentTick := 0, inRange := true }

/-- A market snapshot with no position attached (used for the C1
witness: `_validate_state` raises `ValueError` on it). -/
def c1State : AIE.MarketState :=
  { timestamp := 0, poolId := "0xpool1", current_price := .fin 1850,
    price_unit := "eth", twap_1h := 1848, twap_24h := 1845,
    volatility_1h := 0.15, volatility_24h := 0.25, pool_liquidity := 1000000,
    volume_24h := 5000000, gas_price := 50, gas_unit := "gwei",
    position := none, extra := extra0, deviation_pct := none,
    threshold_pct := none, within_bounds := none, price_impact := none }

/-! ## Claims -/

/-- Condition under which `UnitConverter.to_eth` has no usable ETH/USD
price: no call-supplied price and no configured fallback, or the selected
price (call-supplied takes precedence) is non-positive. -/
def usd_price_unavailable (env : Env) (eth_price_usd : Option ℚ) : Prop :=
  match eth_price_usd with
  | some p => p ≤ 0
  | none =>
    match env.ethPriceUsdFallback with
    | some p => p ≤ 0
    | none => True

/-- C8: for every non-negative finite value, `to_eth` with unit `usd`
raises (returns an error, never a silently defaulted value) whenever
neither a call-supplied ETH/USD price nor a configured fallback is
available or the available price is non-positive; with units `wei`,
`gwei`, `eth` it divides by `1e18`, divides by `1e9`, or returns the
value unchanged, respectively. -/
theorem c8_to_eth_units (env : Env) (eth_price_usd : Option ℚ) (q : ℚ) (hq : 0 ≤ q) :
    (usd_price_unavailable env eth_price_usd →
      ∃ e, AIE.to_eth env (.fin q) "usd" eth_price_usd = .error e)
    ∧ AIE.to_eth env (.fin q) "wei" eth_price_usd = .ok (q / 1e18)
    ∧ AIE.to_eth env (.fin q) "gwei" eth_price_usd = .ok (q / 1e9)
    ∧ AIE.to_eth env (.fin q) "eth" eth_price_usd = .ok q := by
  have hq' : ¬ q < 0 := not_lt.mpr hq
  refine ⟨?_, ?_, ?_, ?_⟩
  · intro hu
    unfold AIE.to_eth AIE.to_float_safe
    unfold usd_price_unavailable at hu
    cases heu : eth_price_usd with
    | some p =>
        rw [heu] at hu
        have hp : p ≤ 0 := hu
        simp [hq', hp]
    | none =>
        rw [heu] at hu
        cases hf : env.ethPriceUsdFallback with
        | some p =>
            rw [hf] at hu
            have hp : p ≤ 0 := hu
            simp [hq', hf, hp]
        | none => simp [hq', hf]
  · unfold AIE.to_eth AIE.to_float_safe
    simp [hq']
  · unfold AIE.to_eth AIE.to_float_safe
    simp [hq']
  · unfold AIE.to_eth AIE.to_float_safe
    simp [hq']

/-- C8 witness: concrete evaluation at value 5 with no available USD
price. -/
theorem c8_witness :
    (0 : ℚ) ≤ 5 ∧ usd_price_unavailable env0 none ∧
    (∃ e, AIE.to_eth env0 (.fin 5) "usd" none = .error e) ∧
    AIE.to_eth env0 (.fin 5) "wei" none = .ok ((5 : ℚ) / 1e18) ∧
    AIE.to_eth env0 (.fin 5) "gwei" none = .ok ((5 : ℚ) / 1e9) ∧
    AIE.to_eth env0 (.fin 5) "eth" none = .ok 5 := by
  have h := c8_to_eth_units env0 none 5 (by norm_num)
  exact ⟨by norm_num, by constructor, h.1 (by constructor), h.2.1, h.2.2.1, h.2.2.2⟩

/-- C10 counterexample: for the action `hold` the configured gas limit is
0, so `calculate_gas_cost` returns exactly 0 — not a strictly positive
value as the claim states for every action name. -/
theorem c10_counterexample : AIE.calculate_gas_cost 50 "gwei" "hold" = 0 := by
  simp [AIE.calculate_gas_cost, AIE.to_gwei, AIE.gas_limit_for, min_def, max_def]
  norm_num

/-- C10 (amended): for every gas price value and unit tag, and every
action other than `hold`, `calculate_gas_cost` returns a strictly
positive value no greater than 0.5 ETH (gwei price floored at 1, result
capped at 0.5); for `hold` the configured gas limit 0 yields exactly 0. -/
theorem c10_gas_cost_bounds (gas_price : ℚ) (gas_unit action : String)
    (h : action ≠ "hold") :
    0 < AIE.calculate_gas_cost gas_price gas_unit action ∧
    AIE.calculate_gas_cost gas_price gas_unit action ≤ 0.5 := by
  unfold AIE.calculate_gas_cost
  constructor
  · have h1 : (1 : ℚ) ≤ max 1 (AIE.to_gwei gas_price gas_unit) := le_max_left _ _
    have h2 : 0 < AIE.gas_limit_for action := by
      unfold AIE.gas_limit_for
      split_ifs <;> norm_num
    have : 0 < max 1 (AIE.to_gwei gas_price gas_unit) * AIE.gas_limit_for action / 1e9 := by
      positivity
    exact lt_min this (by norm_num)
  · exact min_le_right _ _

/-- C10 witness: concrete evaluation at 50 gwei for a rebalance. -/
theorem c10_witness :
    "rebalance" ≠ "hold" ∧
    (0 < AIE.calculate_gas_cost 50 "gwei" "rebalance" ∧
     AIE.calculate_gas_cost 50 "gwei" "rebalance" ≤ 0.5) :=
  ⟨by decide, c10_gas_cost_bounds 50 "gwei" "rebalance" (by decide)⟩

/-- C1: `decide` never raises — every exception inside the body resolves
to the fallback decision, whose action is `hold`. -/
theorem c1_decide_error_resolves_to_hold (env : Env) (recent : List String)
    (s : AIE.MarketState) (e : String)
    (h : AIE.decide_body env recent s = .error e) :
    (AIE.decide env recent s).1 = AIE.create_fallback_decision e ∧
    (AIE.decide env recent s).1.action = "hold" := by
  unfold AIE.decide
  rw [h]
  exact ⟨rfl, rfl⟩

/-- C1 witness: a state with a missing position makes `_validate_state`
raise, and `decide` returns the fallback `hold` decision. -/
theorem c1_witness :
    AIE.decide_body env0 [] c1State = .error "Invalid state: missing position" ∧
    (AIE.decide env0 [] c1State).1.action = "hold" :=
  ⟨rfl, (c1_decide_error_resolves_to_hold env0 [] c1State
    "Invalid state: missing position" rfl).2⟩

/-- C9: the tick/price round trip.  On the exact reals,
`log (1.0001^t) / log 1.0001 = t`, so the round trip is exact — in
particular within one tick as claimed. -/
theorem c9_round_trip (t : ℤ) (h1 : -887272 ≤ t) (h2 : t ≤ 887272) :
    |RC.price_to_tick ((RC.tick_to_price t : ℚ) : ℝ) - t| ≤ 1 := by
  have hc : RC.clampTick t = t := by unfold RC.clampTick; omega
  have hb : (0 : ℝ) < ((10001 / 10000 : ℚ) : ℝ) := by norm_num
  have hcast : ((RC.tick_to_price t : ℚ) : ℝ) = ((10001 / 10000 : ℚ) : ℝ) ^ t := by
    unfold RC.tick_to_price
    rw [hc, Rat.cast_zpow]
  have hpos : (0 : ℝ) < ((10001 / 10000 : ℚ) : ℝ) ^ t := zpow_pos hb t
  unfold RC.price_to_tick
  rw [hcast, if_neg (not_le.mpr hpos), Real.log_zpow]
  have hlog : Real.log ((10001 / 10000 : ℚ) : ℝ) = Real.log ((10001 : ℝ) / 10000) := by
    norm_num
  have hne : Real.log ((10001 : ℝ) / 10000) ≠ 0 :=
    Real.log_ne_zero_of_pos_of_ne_one (by norm_num) (by norm_num)
  rw [hlog, mul_div_assoc, div_self hne, mul_one, Int.floor_intCast]
  unfold RC.clampTick
  have : max (-887272) (min 887272 t) = t := by omega
  rw [this]
  simp

/-- C9 witness: the round trip at tick 0. -/
theorem c9_witness :
    (-887272 : ℤ) ≤ 0 ∧ (0 : ℤ) ≤ 887272 ∧
    |RC.price_to_tick ((RC.tick_to_price 0 : ℚ) : ℝ) - 0| ≤ 1 :=
  ⟨by decide, by decide, c9_round_trip 0 (by decide) (by decide)⟩

/-- The impermanent-loss estimate is never negative: every return path is
`0` or clamped below by `max 0`. -/
theorem calculate_impermanent_loss_nonneg (env : Env) (entry_price current_price : ℚ)
    (lower_tick upper_tick : ℤ) :
    0 ≤ RC.calculate_impermanent_loss env entry_price current_price lower_tick upper_tick := by
  unfold RC.calculate_impermanent_loss
  dsimp only
  split_ifs <;> first | rfl | exact le_max_left 0 _

/-- The position value is never negative: every return path is `0` or
clamped below by `max 0`. -/
theorem calculate_position_value_nonneg (p : RC.PositionState) (b : Bool) :
    0 ≤ RC.calculate_position_value p b := by
  unfold RC.calculate_position_value
  split_ifs <;> first | rfl | exact le_max_left 0 _

/-- C3: for every invocation, `net_reward` equals exactly
`total_benefit - total_cost`, and (for a non-negative gas cost, the only
kind the engine produces) `total_cost` is exactly the sum of the gas,
slippage and crystallized-IL components — gas is counted exactly once. -/
theorem c3_net_reward_accounting (env : Env) (pre post : RC.PositionState)
    (pool : RC.PoolState) (gas_cost_eth forecast_hours : ℚ) (hg : 0 ≤ gas_cost_eth) :
    (RC.calculate_net_reward env pre post pool gas_cost_eth forecast_hours).net_reward =
      (RC.calculate_net_reward env pre post pool gas_cost_eth forecast_hours).total_benefit -
      (RC.calculate_net_reward env pre post pool gas_cost_eth forecast_hours).total_cost ∧
    (RC.calculate_net_reward env pre post pool gas_cost_eth forecast_hours).total_cost =
      (RC.calculate_net_reward env pre post pool gas_cost_eth forecast_hours).gas_cost +
      (RC.calculate_net_reward env pre post pool gas_cost_eth forecast_hours).slippage_cost +
      (RC.calculate_net_reward env pre post pool gas_cost_eth forecast_hours).il_crystallized := by
  constructor
  · rfl
  · show (RC.calculate_rebalance_cost env pre gas_cost_eth 30).total_cost =
      (RC.calculate_rebalance_cost env pre gas_cost_eth 30).gas_cost +
      (RC.calculate_rebalance_cost env pre gas_cost_eth 30).slippage_cost +
      (RC.calculate_rebalance_cost env pre gas_cost_eth 30).il_crystallized
    unfold RC.calculate_rebalance_cost
    dsimp only
    split_ifs with hpre
    · simp
    · have hpre' : 0 < RC.calculate_position_value pre true := lt_of_not_le hpre
      have hslip : 0 ≤ RC.calculate_position_value pre true * (30 / 10000) * 2 := by positivity
      have hil : 0 ≤ RC.calculate_position_value pre true *
          RC.calculate_impermanent_loss env
            (RC.tick_to_price (Int.fdiv (pre.lower_tick + pre.upper_tick) 2))
            pre.current_price pre.lower_tick pre.upper_tick :=
        mul_nonneg hpre'.le (calculate_impermanent_loss_nonneg env _ _ _ _)
      simp only
      rw [max_eq_right hg, max_eq_right hslip, max_eq_right hil,
        max_eq_right (by linarith)]
      ring

/-- Every successful run of the feature-extraction body returns the
elementwise clip of a list of 20 raw feature values. -/
theorem extract_features_body_ok_shape (env : Env) (s : AIE.MarketState) (v : List ℚ)
    (h : AIE.extract_features_body env s = .ok v) :
    ∃ l, v = List.map AIE.clipFeature l ∧ l.length = 20 := by
  unfold AIE.extract_features_body at h
  dsimp only at h
  split at h
  · exact absurd h (fun hco => Except.noConfusion hco)
  split at h
  · exact absurd h (fun hco => Except.noConfusion hco)
  split at h
  · exact absurd h (fun hco => Except.noConfusion hco)
  split at h
  · exact absurd h (fun hco => Except.noConfusion hco)
  split at h
  · exact absurd h (fun hco => Except.noConfusion hco)
  rw [Except.ok.injEq] at h
  exact ⟨_, h.symm, rfl⟩

/-- C2: for every input `MarketState` the feature vector has exactly 20
entries, each within `[-10, 10]` (hence finite); when the extraction body
fails as a whole, the result is the all-zero vector of length 20 rather
than an error. -/
theorem c2_feature_vector (env : Env) (s : AIE.MarketState) :
    (AIE.extract_features env s).length = 20 ∧
    (∀ x ∈ AIE.extract_features env s, -10 ≤ x ∧ x ≤ 10) ∧
    ((AIE.extract_features_body env s).isOk = false →
      AIE.extract_features env s = List.replicate 20 0) := by
  unfold AIE.extract_features
  cases hb : AIE.extract_features_body env s with
  | error e =>
      refine ⟨by simp, ?_, fun _ => rfl⟩
      intro x hx
      rw [List.eq_of_mem_replicate hx]
      norm_num
  | ok v =>
      obtain ⟨l, hv, hl⟩ := extract_features_body_ok_shape env s v hb
      subst hv
      refine ⟨by simp [hl], ?_, ?_⟩
      · intro x hx
        obtain ⟨y, -, rfl⟩ := List.mem_map.mp hx
        unfold AIE.clipFeature
        exact ⟨le_min (le_max_right _ _) (by norm_num), min_le_right _ _⟩
      · intro hfalse
        simp [Except.isOk, Except.toBool] at hfalse

/-- A market snapshot whose price unit is `usd` with no ETH/USD price
available anywhere: the first `to_eth` call inside the extraction body
raises, exercising the total-failure path of `extract_features`.
First, its position. -/
def c2FailPos : AIE.Position :=
  { id := 1, owner := "0x1234", lowerTick := -100, upperTick := 100,
    liquidity := 1, token0_balance := 1, token1_balance := 1, fees_earned_0 := 0,
    fees_earned_1 := 0, age_seconds := 0 }

/-- The failing `usd`-unit snapshot itself. -/
def c2FailState : AIE.MarketState :=
  { timestamp := 0, poolId := "0xpool1", current_price := .fin 1850,
    price_unit := "usd", twap_1h := 0, twap_24h := 0, volatility_1h := 0,
    volatility_24h := 0, pool_liquidity := 1000000, volume_24h := 0,
    gas_price := 50, gas_unit := "gwei", position := some c2FailPos,
    extra := extra0, deviation_pct := none, threshold_pct := none,
    within_bounds := none, price_impact := none }

/-- C2 witness: on the failing state the body errors and
`extract_features` returns the zero vector; the bounds hold there too. -/
theorem c2_witness :
    (AIE.extract_features_body env0 c2FailState).isOk = false ∧
    AIE.extract_features env0 c2FailState = List.replicate 20 0 ∧
    (AIE.extract_features env0 c2FailState).length = 20 := by
  have h1 : AIE.to_eth env0 (PyF.fin 1850) "usd" none =
      Except.error "USD->ETH conversion requires eth_price_usd in call or CONFIG.ETH_PRICE_USD_FALLBACK" := by
    simp [AIE.to_eth, AIE.to_float_safe, env0]
  have hbody : (AIE.extract_features_body env0 c2FailState).isOk = false := by
    unfold AIE.extract_features_body
    dsimp only [c2FailState, extra0]
    rw [h1]
    rfl
  exact ⟨hbody, (c2_feature_vector env0 c2FailState).2.2 hbody,
    (c2_feature_vector env0 c2FailState).1⟩

/-- The fast-reject conditions of `_determine_action`: gas above 120 gwei,
gas cost above 12.5% of the position value, or a high reported price
impact on a small position. -/
def c5FastReject (env : Env) (s : AIE.MarketState) : Prop :=
  AIE.to_gwei s.gas_price s.gas_unit > 120 ∨
  AIE.safe_division (AIE.calculate_gas_cost s.gas_price s.gas_unit "rebalance")
    (AIE.calculate_position_value env s) 0 * 100 > 12.5 ∨
  (AIE.price_impact_high s = true ∧ AIE.calculate_position_value env s < 5)

/-- C5 (amended): past the fast rejects, `_determine_action` returns
`rebalance` exactly when confidence exceeds 0.7 — regardless of the
predicted reward, the dynamic threshold and the risk level — or when the
position is out of range with confidence above 0.5 and reward above 0.01;
the two intermediate branches demanding confidence above 0.75/0.8
together with reward thresholds are subsumed by the unconditional 0.7
branch and unreachable.  In every other case the action is `hold`. -/
theorem c5_policy_characterization (env : Env) (reward : WithBot ℚ) (confidence : ℚ)
    (risk_level : String) (s : AIE.MarketState) :
    (AIE.determine_action env reward confidence risk_level s = "rebalance" ↔
      (¬ c5FastReject env s ∧
        (confidence > 0.7 ∨
          (s.extra.inRange = false ∧ confidence > 0.5 ∧
            reward > ((0.01 : ℚ) : WithBot ℚ))))) ∧
    (AIE.determine_action env reward confidence risk_level s = "rebalance" ∨
      AIE.determine_action env reward confidence risk_level s = "hold") := by
  unfold AIE.determine_action c5FastReject
  dsimp only
  split_ifs with h1 h2 h3 h4 h5 h6
  · exact ⟨iff_of_false (by decide) (fun hc => hc.1 (h1.imp id Or.inl)), Or.inr rfl⟩
  · exact ⟨iff_of_false (by decide) (fun hc => hc.1 (Or.inr (Or.inr h2))), Or.inr rfl⟩
  · refine ⟨iff_of_true rfl ⟨?_, Or.inl h3⟩, Or.inl rfl⟩
    rintro (ha | hb | hcd)
    · exact h1 (Or.inl ha)
    · exact h1 (Or.inr hb)
    · exact h2 hcd
  · exact absurd (lt_trans (by norm_num) h4.1) h3
  · exact absurd (lt_trans (by norm_num) h5.1) h3
  · simp only [Bool.not_eq_true] at h6
    refine ⟨iff_of_true rfl ⟨?_, Or.inr h6⟩, Or.inl rfl⟩
    rintro (ha | hb | hcd)
    · exact h1 (Or.inl ha)
    · exact h1 (Or.inr hb)
    · exact h2 hcd
  · refine ⟨iff_of_false (by decide) ?_, Or.inr rfl⟩
    rintro ⟨-, hco | ⟨hf, hc, hr⟩⟩
    · exact h3 hco
    · exact h6 ⟨by simp [hf], hc, hr⟩

/-- A concrete position for the C5 counterexample. -/
def c5Pos : AIE.Position :=
  { id := 1, owner := "0x1234", lowerTick := -100, upperTick := 100, liquidity := 1,
    token0_balance := 1, token1_balance := 1, fees_earned_0 := 0, fees_earned_1 := 0,
    age_seconds := 0 }

/-- A concrete state passing every fast reject (50 gwei gas, position
value 2 ETH, no price-impact report), in range, zero volatility. -/
def c5State : AIE.MarketState :=
  { timestamp := 0, poolId := "0xpool1", current_price := .fin 1, price_unit := "eth",
    twap_1h := 0, twap_24h := 0, volatility_1h := 0, volatility_24h := 0,
    pool_liquidity := 1000000, volume_24h := 0, gas_price := 50, gas_unit := "gwei",
    position := some c5Pos,
    extra := { extra0 with token0_price_eth := some 1, token1_price_eth := some 1 },
    deviation_pct := none, threshold_pct := none, within_bounds := none,
    price_impact := none }

/-- C5 counterexample: with reward 0, risk `low`, the position in range,
and confidence 0.72, `_determine_action` returns `rebalance` — although
the reward (0) exceeds neither the (positive) dynamic threshold nor 0,
and the position is not out of range, so the claim as stated requires
`hold` here.  The `confidence > 0.7` branch fires unconditionally. -/
theorem c5_counterexample :
    AIE.determine_action env0 ((0 : ℚ) : WithBot ℚ) 0.72 "low" c5State = "rebalance" ∧
    c5State.extra.inRange = true ∧
    0 < (orQ c5State.threshold_pct 3 + c5State.volatility_24h * 5 +
          AIE.to_gwei c5State.gas_price c5State.gas_unit / 1000) / 100 := by
  refine ⟨?_, rfl, ?_⟩
  · unfold AIE.determine_action
    dsimp only
    simp [c5State, c5Pos, extra0, AIE.to_gwei, AIE.calculate_gas_cost,
      AIE.calculate_position_value, AIE.safe_division, AIE.gas_limit_for,
      AIE.price_impact_high, min_def, max_def]
    try norm_num
  · simp [c5State, AIE.to_gwei, orQ]
    try norm_num

/-- `_determine_action` can only return `hold` or `rebalance`. -/
theorem determine_action_hold_or_rebalance (env : Env) (reward : WithBot ℚ)
    (confidence : ℚ) (risk_level : String) (s : AIE.MarketState) :
    AIE.determine_action env reward confidence risk_level s = "hold" ∨
    AIE.determine_action env reward confidence risk_level s = "rebalance" := by
  unfold AIE.determine_action
  dsimp only
  split_ifs <;> simp

/-- The heuristic confidence always lies in `[0.05, 0.9]` (each return
site is a literal in that range or clipped into it). -/
theorem heuristic_confidence_bounds (env : Env) (s : AIE.MarketState) :
    0.05 ≤ (AIE.heuristic_prediction env s).2 ∧
    (AIE.heuristic_prediction env s).2 ≤ 0.9 := by
  unfold AIE.heuristic_prediction
  set pv := AIE.calculate_position_value env s with hpv
  set gce := AIE.calculate_gas_cost s.gas_price s.gas_unit "rebalance" with hgce
  set ggw := AIE.to_gwei s.gas_price s.gas_unit with hggw
  dsimp only
  by_cases h1 : ggw > 150 ∨
      (if 0 < pv then ((AIE.safe_division gce pv 0 * 100 : ℚ) : WithTop ℚ) else ⊤) >
        ((12.5 : ℚ) : WithTop ℚ)
  · rw [if_pos h1]
    exact ⟨by norm_num, by norm_num⟩
  · rw [if_neg h1]
    by_cases h2 : AIE.price_impact_high s = true
    · rw [if_pos h2]
      exact ⟨by norm_num, by norm_num⟩
    · rw [if_neg h2]
      cases s.position with
      | none => exact ⟨by norm_num, by norm_num⟩
      | some pos =>
          dsimp only
          exact ⟨le_min (le_max_right _ _) (by norm_num), min_le_right _ _⟩

/-- Structure of the pre-safety decision: its action is the one computed
by `_determine_action`, its reason is `rule_based`, and its confidence is
the heuristic confidence (the two clips around it are the identity on
`[0.05, 0.9]`). -/
theorem decide_core_fields (env : Env) (s : AIE.MarketState) :
    (AIE.decide_core env s).action =
      AIE.determine_action env (AIE.heuristic_prediction env s).1
        (AIE.heuristic_prediction env s).2 (AIE.assess_risk env s).1 s ∧
    (AIE.decide_core env s).reason = "rule_based" ∧
    (AIE.decide_core env s).confidence = (AIE.heuristic_prediction env s).2 := by
  refine ⟨rfl, rfl, ?_⟩
  have h := heuristic_confidence_bounds env s
  have h0 : (0 : ℚ) ≤ (AIE.heuristic_prediction env s).2 := by linarith [h.1]
  have h1 : (AIE.heuristic_prediction env s).2 ≤ 1 := by linarith [h.2]
  unfold AIE.decide_core AIE.mkDecision
  dsimp only
  rw [max_eq_left h0, min_eq_left h1, min_eq_right h1, max_eq_right h0]

/-- The anti-bias step never changes the action or the reason, and can
only dampen the confidence by the fixed factor 0.7. -/
theorem apply_anti_bias_fields (recent : List String) (d : AIE.Decision) :
    (AIE.apply_anti_bias recent d).action = d.action ∧
    (AIE.apply_anti_bias recent d).reason = d.reason ∧
    ((AIE.apply_anti_bias recent d).confidence = d.confidence ∨
      (AIE.apply_anti_bias recent d).confidence = d.confidence * 0.7) := by
  unfold AIE.apply_anti_bias
  dsimp only
  split_ifs <;>
    first
    | exact ⟨rfl, rfl, Or.inr rfl⟩
    | exact ⟨rfl, rfl, Or.inl rfl⟩

/-- C4: whenever any safety condition holds on the validated state — gas
price above the 200 gwei ceiling, non-positive position value, rebalance
gas cost above the 0.01 ETH ceiling, gas cost above 12.5% of the position
value, or a high risk level with confidence below 0.8 — the decision
returned by `decide` has action `hold`, regardless of the upstream
recommendation; its reason is annotated with `_safety_blocked` and its
confidence does not exceed the pre-safety confidence. -/
theorem c4_safety_gate (env : Env) (recent : List String) (s s1 : AIE.MarketState)
    (hval : AIE.validate_state env s = .ok s1)
    (hcond :
      AIE.to_gwei s1.gas_price s1.gas_unit > 200 ∨
      AIE.calculate_position_value env s1 ≤ 0 ∨
      AIE.calculate_gas_cost s1.gas_price s1.gas_unit "rebalance" > 0.01 ∨
      100 * AIE.calculate_gas_cost s1.gas_price s1.gas_unit "rebalance" >
        12.5 * AIE.calculate_position_value env s1 ∨
      ((AIE.decide_core env s1).risk_level = "high" ∧
        (AIE.decide_core env s1).confidence < 0.8)) :
    (AIE.decide env recent s).1.action = "hold" ∧
    (AIE.decide env recent s).1.reason = "rule_based_safety_blocked" ∧
    (AIE.decide env recent s).1.confidence ≤ (AIE.decide_core env s1).confidence := by
  have hcf : (AIE.decide_core env s1).confidence = (AIE.heuristic_prediction env s1).2 :=
    (decide_core_fields env s1).2.2
  have hc05 : 0.05 ≤ (AIE.decide_core env s1).confidence := by
    rw [hcf]; exact (heuristic_confidence_bounds env s1).1
  have haction : (AIE.decide_core env s1).action = "hold" ∨
      (AIE.decide_core env s1).action = "rebalance" := by
    rw [(decide_core_fields env s1).1]
    exact determine_action_hold_or_rebalance env _ _ _ s1
  have hse : AIE.should_execute env (AIE.decide_core env s1) s1 = false := by
    by_contra hne
    have htrue : AIE.should_execute env (AIE.decide_core env s1) s1 = true := by
      cases h : AIE.should_execute env (AIE.decide_core env s1) s1
      · exact absurd h hne
      · rfl
    have hreb : (AIE.decide_core env s1).action = "rebalance" := by
      rcases haction with hh | hr
      · unfold AIE.should_execute at htrue
        rw [if_pos hh] at htrue
        exact Bool.noConfusion htrue
      · exact hr
    unfold AIE.should_execute at htrue
    split_ifs at htrue with h1 h2 h3 h4 hpv h6 h7 <;>
      first
      | exact Bool.noConfusion htrue
      | exact absurd (WithTop.coe_lt_top (12.5 : ℚ)) (by assumption)
      | skip
    rcases hcond with hc | hc | hc | hc | hc
    · exact h2 hc
    · exact h3 hc
    · rw [hreb] at h4; exact h4 hc
    · apply h6
      rw [hreb]
      have hlt : (12.5 : ℚ) <
          AIE.safe_division (AIE.calculate_gas_cost s1.gas_price s1.gas_unit "rebalance")
            (AIE.calculate_position_value env s1) 0 * 100 := by
        unfold AIE.safe_division
        rw [if_neg (ne_of_gt hpv), div_mul_eq_mul_div, lt_div_iff₀ hpv]
        linarith
      exact_mod_cast hlt
    · exact h7 hc
  have hdec : AIE.decide env recent s =
      (AIE.apply_anti_bias recent (AIE.apply_safety env (AIE.decide_core env s1) s1), s1) := by
    unfold AIE.decide AIE.decide_body
    rw [hval]
  have hsafety : AIE.apply_safety env (AIE.decide_core env s1) s1 =
      { AIE.decide_core env s1 with
        action := "hold"
        reason := (AIE.decide_core env s1).reason ++ "_safety_blocked"
        confidence := max 0.05 ((AIE.decide_core env s1).confidence - 0.2) } := by
    unfold AIE.apply_safety
    rw [hse]
    rfl
  have hanti := apply_anti_bias_fields recent (AIE.apply_safety env (AIE.decide_core env s1) s1)
  rw [hdec]
  dsimp only
  refine ⟨?_, ?_, ?_⟩
  · rw [hanti.1, hsafety]
  · rw [hanti.2.1, hsafety]
    dsimp only
    rw [(decide_core_fields env s1).2.1]
    rfl
  · have hd1c : (AIE.apply_safety env (AIE.decide_core env s1) s1).confidence =
        max 0.05 ((AIE.decide_core env s1).confidence - 0.2) := by rw [hsafety]
    have hle : max 0.05 ((AIE.decide_core env s1).confidence - 0.2) ≤
        (AIE.decide_core env s1).confidence :=
      max_le hc05 (by linarith)
    rcases hanti.2.2 with hcc | hcc <;> rw [hcc, hd1c]
    · exact hle
    · nlinarith [hle, hc05]

/-- The C5 state with gas price raised to 1000 gwei (the spec's safety
scenario); validation leaves this state unchanged. -/
def c4State : AIE.MarketState :=
  { c5State with gas_price := 1000 }

/-- C4 witness: at 1000 gwei the gas ceiling condition holds and the
returned action is forced to `hold`. -/
theorem c4_witness :
    AIE.validate_state env0 c4State = Except.ok c4State ∧
    AIE.to_gwei c4State.gas_price c4State.gas_unit > 200 ∧
    (AIE.decide env0 [] c4State).1.action = "hold" := by
  have hv : AIE.validate_state env0 c4State = Except.ok c4State := by
    unfold AIE.validate_state
    dsimp only [c4State, c5State, c5Pos, extra0]
    rw [show AIE.to_eth env0 ((PyF.fin 1).orF 1) "eth" none = Except.ok 1 by
      simp [AIE.to_eth, AIE.to_float_safe, PyF.orF]]
    norm_num [max_def]
  have hg : AIE.to_gwei c4State.gas_price c4State.gas_unit > 200 := by
    dsimp only [c4State, c5State]
    unfold AIE.to_gwei
    rw [if_neg (show ¬((1000 : ℚ) ≤ 0) by norm_num),
      if_neg (show ¬(("gwei" : String) = "wei") from by decide), if_pos rfl]
    norm_num
  exact ⟨hv, hg, (c4_safety_gate env0 [] c4State c4State hv (Or.inl hg)).1⟩

/-- The invariants `MarketState.__post_init__` establishes on every
constructed snapshot (pool liquidity floored at 1000, gas price defaulted
away from 0, balances and liquidity clamped at 0): `decide` is only ever
called on such states. -/
def CanonicalState (s : AIE.MarketState) : Prop :=
  1000 ≤ s.pool_liquidity ∧ s.gas_price ≠ 0 ∧
  (match s.position with
   | none => True
   | some p => 0 ≤ p.token0_balance ∧ 0 ≤ p.token1_balance ∧ 0 ≤ p.liquidity)

/-- C6 (amended): `decide` is not mutation-free — `_validate_state`
canonicalizes the snapshot in place — but on every canonically
constructed state the only field it can actually change is
`current_price`: every other field of the `MarketState` and of its
`Position` is unchanged by a call to `decide`. -/
theorem c6_fields_preserved (env : Env) (recent : List String) (s : AIE.MarketState)
    (h : CanonicalState s) :
    (AIE.decide env recent s).2.timestamp = s.timestamp ∧
    (AIE.decide env recent s).2.poolId = s.poolId ∧
    (AIE.decide env recent s).2.price_unit = s.price_unit ∧
    (AIE.decide env recent s).2.twap_1h = s.twap_1h ∧
    (AIE.decide env recent s).2.twap_24h = s.twap_24h ∧
    (AIE.decide env recent s).2.volatility_1h = s.volatility_1h ∧
    (AIE.decide env recent s).2.volatility_24h = s.volatility_24h ∧
    (AIE.decide env recent s).2.pool_liquidity = s.pool_liquidity ∧
    (AIE.decide env recent s).2.volume_24h = s.volume_24h ∧
    (AIE.decide env recent s).2.gas_price = s.gas_price ∧
    (AIE.decide env recent s).2.gas_unit = s.gas_unit ∧
    (AIE.decide env recent s).2.position = s.position ∧
    (AIE.decide env recent s).2.extra = s.extra ∧
    (AIE.decide env recent s).2.deviation_pct = s.deviation_pct ∧
    (AIE.decide env recent s).2.threshold_pct = s.threshold_pct ∧
    (AIE.decide env recent s).2.within_bounds = s.within_bounds ∧
    (AIE.decide env recent s).2.price_impact = s.price_impact := by
  obtain ⟨hpl, hgp, hpos⟩ := h
  unfold AIE.decide AIE.decide_body
  cases hval : AIE.validate_state env s with
  | error e =>
      exact ⟨rfl, rfl, rfl, rfl, rfl, rfl, rfl, rfl, rfl, rfl, rfl, rfl, rfl, rfl,
        rfl, rfl, rfl⟩
  | ok s1 =>
      unfold AIE.validate_state at hval
      cases hp : s.position with
      | none =>
          rw [hp] at hval
          exact absurd hval (fun hco => Except.noConfusion hco)
      | some pos =>
          rw [hp] at hval
          cases hte : AIE.to_eth env (s.current_price.orF 1) s.price_unit
              s.extra.eth_price_usd with
          | error e =>
              rw [hte] at hval
              exact absurd hval (fun hco => Except.noConfusion hco)
          | ok cp =>
              rw [hte] at hval
              rw [Except.ok.injEq] at hval
              subst hval
              dsimp only
              rw [hp] at hpos
              have hplne : s.pool_liquidity ≠ 0 := by
                intro h0
                rw [h0] at hpl
                norm_num at hpl
              refine ⟨rfl, rfl, rfl, rfl, rfl, rfl, rfl, ?_, rfl, ?_, rfl, ?_, rfl,
                rfl, rfl, rfl, rfl⟩
              · rw [if_neg hplne, max_eq_right hpl]
              · rw [if_neg hgp]
              · rw [max_eq_right hpos.1, max_eq_right hpos.2.1, max_eq_right hpos.2.2]

/-- C6 witness: on the (canonical) C5 state, decide leaves the timestamp
field — and per the theorem every field other than `current_price` —
unchanged. -/
theorem c6_witness :
    CanonicalState c5State ∧ (AIE.decide env0 [] c5State).2.timestamp = c5State.timestamp := by
  have hc : CanonicalState c5State := by
    unfold CanonicalState
    dsimp only [c5State, c5Pos]
    norm_num
  exact ⟨hc, (c6_fields_preserved env0 [] c5State hc).1⟩

/-- The C5 state with its price expressed in wei: validation rewrites
`current_price` in place (2000 wei becomes the floored 1e-9 ETH). -/
def c6State : AIE.MarketState :=
  { c5State with price_unit := "wei", current_price := .fin 2000 }

/-- C6 counterexample: after a call to `decide` the caller's
`MarketState` no longer holds the price it passed in — `current_price`
was mutated from 2000 (wei) to the canonicalized 1e-9 (ETH), so the
snapshot is not treated as immutable. -/
theorem c6_counterexample :
    (AIE.decide env0 [] c6State).2.current_price ≠ c6State.current_price := by
  have hval : AIE.validate_state env0 c6State =
      Except.ok { c6State with current_price := PyF.fin 1e-9 } := by
    unfold AIE.validate_state
    dsimp only [c6State, c5State, c5Pos, extra0]
    rw [show AIE.to_eth env0 ((PyF.fin 2000).orF 1) "wei" none = Except.ok (2000 / 1e18) by
      simp [AIE.to_eth, AIE.to_float_safe, PyF.orF]]
    norm_num [max_def]
  unfold AIE.decide AIE.decide_body
  rw [hval]
  dsimp only [c6State, c5State]
  intro hco
  injection hco with hco'
  norm_num at hco'

/-- The safety-gate step never changes the risk level. -/
theorem apply_safety_risk_level (env : Env) (d : AIE.Decision) (s : AIE.MarketState) :
    (AIE.apply_safety env d s).risk_level = d.risk_level := by
  unfold AIE.apply_safety
  split_ifs <;> rfl

/-- The anti-bias step never changes the risk level. -/
theorem apply_anti_bias_risk_level (recent : List String) (d : AIE.Decision) :
    (AIE.apply_anti_bias recent d).risk_level = d.risk_level := by
  unfold AIE.apply_anti_bias
  dsimp only
  split_ifs <;> rfl

/-- The position of the test fixture of `tests_ai.py`
(`TestAIEngine.setup_method`). -/
def c7Pos : AIE.Position :=
  { id := 1, owner := "0x1234", lowerTick := -100000, upperTick := 100000,
    liquidity := 50000, token0_balance := 1000, token1_balance := 1850000,
    fees_earned_0 := 10, fees_earned_1 := 18500, age_seconds := 86400 }

/-- The market snapshot of `test_decide_handles_errors_gracefully`:
the test fixture state with `current_price = float('nan')`. -/
def c7State : AIE.MarketState :=
  { timestamp := 1699564800, poolId := "0xpool1", current_price := PyF.nan,
    price_unit := "eth", twap_1h := 1848, twap_24h := 1845, volatility_1h := 0.15,
    volatility_24h := 0.25, pool_liquidity := 1000000, volume_24h := 5000000,
    gas_price := 50, gas_unit := "gwei", position := some c7Pos, extra := extra0,
    deviation_pct := none, threshold_pct := none, within_bounds := none,
    price_impact := none }

/-- The state as `_validate_state` leaves it: the NaN price has been
sanitized to 0 ETH and floored at the 1e-9 minimum. -/
def c7Valid : AIE.MarketState :=
  { c7State with current_price := PyF.fin 1e-9 }

/-- `to_eth` is the identity on non-negative ETH-denominated rationals. -/
theorem to_eth_eth_id (env : Env) (q : ℚ) (ethUsd : Option ℚ) (hq : ¬ q < 0) :
    AIE.to_eth env (PyF.fin q) "eth" ethUsd = Except.ok q := by
  simp [AIE.to_eth, AIE.to_float_safe, hq]

/-- Validation of the NaN-price test state: no exception is raised; the
price is replaced by the 1e-9 floor and everything else is kept. -/
theorem c7_validate_eval :
    AIE.validate_state env0 c7State = Except.ok c7Valid := by
  unfold AIE.validate_state
  dsimp only [c7State, c7Valid, c7Pos, extra0, PyF.orF]
  rw [show AIE.to_eth env0 PyF.nan "eth" none = Except.ok 0 from by
    simp [AIE.to_eth, AIE.to_float_safe]]
  norm_num [max_def]

/-- The position value of the validated test state (token balances read
as ETH-denominated, legacy fallback path). -/
theorem c7_pos_value_eval :
    AIE.calculate_position_value env0 c7Valid = 1851000 := by
  unfold AIE.calculate_position_value
  dsimp only [c7Valid, c7State, c7Pos, extra0]
  rw [to_eth_eth_id env0 1000 none (by norm_num),
    to_eth_eth_id env0 1850000 none (by norm_num)]
  norm_num [max_def]

/-- The rebalance gas cost of the test state: 50 gwei times the 600000
gas limit is 0.03 ETH. -/
theorem c7_gas_cost_eval :
    AIE.calculate_gas_cost c7Valid.gas_price c7Valid.gas_unit "rebalance" = 3 / 100 := by
  show AIE.calculate_gas_cost 50 "gwei" "rebalance" = 3 / 100
  simp [AIE.calculate_gas_cost, AIE.to_gwei, AIE.gas_limit_for, min_def, max_def]
  norm_num

/-- The risk assessment of the validated test state is `medium` (score
0.4125 plus a negligible gas-risk term). -/
theorem c7_risk_eval : (AIE.assess_risk env0 c7Valid).1 = "medium" := by
  unfold AIE.assess_risk
  rw [c7_gas_cost_eval, c7_pos_value_eval]
  dsimp only [c7Valid, c7State, c7Pos, extra0]
  rw [show ∀ q : ℚ, env0.sqrt q = 0 from fun _ => rfl]
  norm_num [AIE.safe_division, AIE.safe_division_f, AIE.compute_deviation_pct,
    AIE.twapOrCurrent, min_def, max_def, abs_of_nonneg, abs_of_nonpos]

/-- C7: on the NaN-price input of the engine's own test
`test_decide_handles_errors_gracefully`, `decide` does not raise, but it
does not return the documented error fallback either: the NaN price is
sanitized and the pipeline runs normally; the decision is `hold` only
because the safety gate blocks on gas cost, its risk level is `medium`
(the claim demands `high`), and its reason is
`rule_based_safety_blocked`, which carries no error marker (the test
asserts the substring `error`). -/
theorem c7_nan_price_behavior :
    (AIE.decide env0 [] c7State).1.action = "hold" ∧
    (AIE.decide env0 [] c7State).1.risk_level = "medium" ∧
    (AIE.decide env0 [] c7State).1.reason = "rule_based_safety_blocked" := by
  have hse : AIE.should_execute env0 (AIE.decide_core env0 c7Valid) c7Valid = false := by
    have haction : (AIE.decide_core env0 c7Valid).action = "hold" ∨
        (AIE.decide_core env0 c7Valid).action = "rebalance" := by
      rw [(decide_core_fields env0 c7Valid).1]
      exact determine_action_hold_or_rebalance env0 _ _ _ c7Valid
    rcases haction with hh | hr
    · unfold AIE.should_execute
      rw [if_pos hh]
    · unfold AIE.should_execute
      rw [if_neg (show ¬((AIE.decide_core env0 c7Valid).action = "hold") from by
        rw [hr]; decide)]
      rw [if_neg (show ¬(AIE.to_gwei c7Valid.gas_price c7Valid.gas_unit > 200) from by
        show ¬(AIE.to_gwei 50 "gwei" > 200)
        unfold AIE.to_gwei
        rw [if_neg (show ¬((50 : ℚ) ≤ 0) by norm_num),
          if_neg (show ¬(("gwei" : String) = "wei") from by decide), if_pos rfl]
        norm_num)]
      rw [if_neg (show ¬(AIE.calculate_position_value env0 c7Valid ≤ 0) from by
        rw [c7_pos_value_eval]; norm_num)]
      rw [if_pos (show AIE.calculate_gas_cost c7Valid.gas_price c7Valid.gas_unit
          (AIE.decide_core env0 c7Valid).action > 0.01 from by
        rw [hr, c7_gas_cost_eval]; norm_num)]
  have hdec : AIE.decide env0 [] c7State =
      (AIE.apply_anti_bias [] (AIE.apply_safety env0 (AIE.decide_core env0 c7Valid) c7Valid),
        c7Valid) := by
    unfold AIE.decide AIE.decide_body
    rw [c7_validate_eval]
  have hsafety : AIE.apply_safety env0 (AIE.decide_core env0 c7Valid) c7Valid =
      { AIE.decide_core env0 c7Valid with
        action := "hold"
        reason := (AIE.decide_core env0 c7Valid).reason ++ "_safety_blocked"
        confidence := max 0.05 ((AIE.decide_core env0 c7Valid).confidence - 0.2) } := by
    unfold AIE.apply_safety
    rw [hse]
    rfl
  have hanti := apply_anti_bias_fields []
    (AIE.apply_safety env0 (AIE.decide_core env0 c7Valid) c7Valid)
  rw [hdec]
  dsimp only
  refine ⟨?_, ?_, ?_⟩
  · rw [hanti.1, hsafety]
  · rw [apply_anti_bias_risk_level, apply_safety_risk_level]
    exact c7_risk_eval
  · rw [hanti.2.1, hsafety]
    dsimp only
    rw [(decide_core_fields env0 c7Valid).2.1]
    rfl

/-- A concrete in-range position used for the C3 witness. -/
def pre0 : RC.PositionState :=
  { lower_tick := -600, upper_tick := 600, liquidity := 1000, token0_balance := 1,
    token1_balance := 1000, current_tick := 0, current_price := 2000,
    fees_earned_0 := 0, fees_earned_1 := 2 }

/-- A concrete rebalanced position used for the C3 witness. -/
def post0 : RC.PositionState :=
  { lower_tick := -300, upper_tick := 300, liquidity := 1000, token0_balance := 1,
    token1_balance := 1000, current_tick := 0, current_price := 2000,
    fees_earned_0 := 0, fees_earned_1 := 0 }

/-- A concrete pool used for the C3 witness. -/
def pool0 : RC.PoolState :=
  { fee_tier := 3000, volume_24h := 10000000, tvl := 50000000,
    token0_decimals := 18, token1_decimals := 6, active_liquidity_ratio := 0.3 }

/-- C3 witness: concrete evaluation at a 0.01 ETH gas cost. -/
theorem c3_witness :
    (0 : ℚ) ≤ 0.01 ∧
    ((RC.calculate_net_reward env0 pre0 post0 pool0 0.01 24).net_reward =
      (RC.calculate_net_reward env0 pre0 post0 pool0 0.01 24).total_benefit -
      (RC.calculate_net_reward env0 pre0 post0 pool0 0.01 24).total_cost ∧
    (RC.calculate_net_reward env0 pre0 post0 pool0 0.01 24).total_cost =
      (RC.calculate_net_reward env0 pre0 post0 pool0 0.01 24).gas_cost +
      (RC.calculate_net_reward env0 pre0 post0 pool0 0.01 24).slippage_cost +
      (RC.calculate_net_reward env0 pre0 post0 pool0 0.01 24).il_crystallized) :=
  ⟨by norm_num, c3_net_reward_accounting env0 pre0 post0 pool0 0.01 24 (by norm_num)⟩
